import Mathlib

/-!
Verification of the CloudHealth FlexReport operator scripts.

This file gives a shallow embedding of the three scripts of the repository
(`execute-and-download-flexreport.py`, `create-flexreports.py`,
`csv-to-parquet.py`) and proves the stated properties of the poll loop,
the filename sanitizer, the authenticator, the bulk-create loop and the
download-URL extraction.

Network calls are modelled by their responses: a poll response is an
optional `ReportInfo` (with `none` standing for an exception raised while
fetching it), and the bulk-create flow is driven by the list of per-entry
HTTP responses.  Python dictionary lookups via `.get` are modelled with
`Option`, and Python falsiness of strings is an explicit comparison with
the empty string.
-/

namespace FlexTools

/-- One element of the `contents` list of a report result
(`execute-and-download-flexreport.py`, GraphQL shape
`contents { preSignedUrl }`).  `preSignedUrl` is `none` when the key is
absent from the JSON object. -/
structure Content where
  preSignedUrl : Option String
deriving DecidableEq, Repr

/-- The `result` object of a report info response:
`result { status reportUpdatedOn contents { preSignedUrl } }`.
`status` is `none` when the key is absent; `contents` is `none` when the
key is absent (in which case the script substitutes the default
`[{}]`). -/
structure ReportResult where
  status : Option String
  contents : Option (List Content)
deriving DecidableEq, Repr

/-- A report info response, the value of `response["data"]["node"]`
returned by `CloudHealthFlexReport.get_report_info`. -/
structure ReportInfo where
  name : Option String
  result : Option ReportResult
deriving DecidableEq, Repr

/-- `report_info.get("result", {}).get("status")` (line 261 of
`execute-and-download-flexreport.py`): a missing `result` key yields the
default `{}`, whose `status` lookup yields `None`. -/
def getStatus (info : ReportInfo) : Option String :=
  match info.result with
  | none => none
  | some r => r.status

/-- `max_retries = 5` (line 256). -/
def maxRetries : Nat := 5

/-- `sleep_time = 10` (line 255). -/
def initialSleepTime : Nat := 10

/-- `time.sleep(15)` before the first status check (line 251). -/
def initialWait : Nat := 15

/-- `sleep_time = int(sleep_time * 1.5)` (line 306).  For every value the
loop can reach (10, 15, 22, 33, 49, ... all far below 2^51) the double
`sleep_time * 1.5` is exact, so `int` truncation equals `3 * t / 2` in
natural-number division. -/
def nextSleep (t : Nat) : Nat := 3 * t / 2

/-- How the poll loop of `main` (lines 258-310) exits. -/
inductive PollExit where
  /-- `status == "COMPLETED"`: `break`, carrying the last report info into
  the download step (lines 273-276). -/
  | completed (info : ReportInfo)
  /-- `get_report_info` raised, or the status was missing or empty
  (falsy): `sys.exit(1)` (lines 263-268). -/
  | statusError
  /-- `status == "QUEUED"`: `sys.exit(1)` (lines 279-284). -/
  | queuedAbort
  /-- `status == "FAILED"`: `sys.exit(1)` (lines 287-291). -/
  | failedAbort
  /-- `counter >= max_retries`: timeout, `sys.exit(1)` (lines 294-299). -/
  | timeout
  /-- Fuel exhaustion: an artifact of the embedding, proved unreachable
  for the fuel `pollLoop` supplies. -/
  | fuelOut
deriving DecidableEq, Repr

/-- Result of the poll loop: the exit taken, the value of `counter` at
exit (the number of the status check on which the loop stopped), and the
list of `time.sleep(sleep_time)` durations performed inside the loop, in
order (the initial 15-second wait of line 251 is before the loop and not
included). -/
structure PollResult where
  exit : PollExit
  checks : Nat
  sleeps : List Nat
deriving DecidableEq, Repr

/-- The `while True` poll loop of lines 258-310, with `resp i` the report
info obtained by the `i`-th `get_report_info` call (`none` when that call
raised `ValueError` or `RuntimeError`).  State: fuel (for termination of
the embedding), `counter`, `sleep_time`, and the sleeps performed so
far. -/
def pollAux (resp : Nat → Option ReportInfo) :
    Nat → Nat → Nat → List Nat → PollResult
  | 0, counter, _, sleeps => ⟨.fuelOut, counter, sleeps⟩
  | fuel + 1, counter, sleepTime, sleeps =>
    match resp counter with
    | none => ⟨.statusError, counter, sleeps⟩
    | some info =>
      match getStatus info with
      | none => ⟨.statusError, counter, sleeps⟩
      | some s =>
        if s = "" then ⟨.statusError, counter, sleeps⟩
        else if s = "COMPLETED" then ⟨.completed info, counter, sleeps⟩
        else if s = "QUEUED" then ⟨.queuedAbort, counter, sleeps⟩
        else if s = "FAILED" then ⟨.failedAbort, counter, sleeps⟩
        else if maxRetries ≤ counter then ⟨.timeout, counter, sleeps⟩
        else
          let counter' := counter + 1
          let sleepTime' := if 1 < counter' then nextSleep sleepTime else sleepTime
          pollAux resp fuel counter' sleepTime' (sleeps ++ [sleepTime'])

/-- The poll loop as entered by `main`: `counter = 1`, `sleep_time = 10`,
fuel `maxRetries` (enough: the retry ceiling stops the loop at
`counter = 5`, after at most four iterations of the loop body). -/
def pollLoop (resp : Nat → Option ReportInfo) : PollResult :=
  pollAux resp maxRetries 1 initialSleepTime []

/-- The process exit code `main` produces at the poll stage: `none` means
the flow falls through to the download step; every non-`completed` exit
is `sys.exit(1)`.  (`fuelOut` is unreachable; it is mapped to `none`.) -/
def pollExitCode : PollExit → Option Nat
  | .completed _ => none
  | .fuelOut => none
  | .statusError => some 1
  | .queuedAbort => some 1
  | .failedAbort => some 1
  | .timeout => some 1

/-- A poll response that was fetched successfully and carries a truthy
status other than the three recognized terminal ones: the loop treats it
as "still running" and retries. -/
def validNonTerminal (io : Option ReportInfo) : Prop :=
  ∃ info s, io = some info ∧ getStatus info = some s ∧
    s ≠ "" ∧ s ≠ "COMPLETED" ∧ s ≠ "QUEUED" ∧ s ≠ "FAILED"

/-- The successive sleep durations produced by repeatedly applying
`nextSleep`, starting (exclusively) from `t`. -/
def backoffFrom (t : Nat) : Nat → List Nat
  | 0 => []
  | n + 1 => nextSleep t :: backoffFrom (nextSleep t) n

/-- A concrete RUNNING response, for sanity checks and witnesses. -/
def runningInfo : ReportInfo :=
  ⟨some "Report", some ⟨some "RUNNING", none⟩⟩

/-- A concrete COMPLETED response carrying one content descriptor. -/
def completedInfo : ReportInfo :=
  ⟨some "Report", some ⟨some "COMPLETED", some [⟨some "https://s3/x"⟩]⟩⟩

example : pollLoop (fun _ => some runningInfo) =
    ⟨.timeout, 5, [15, 22, 33, 49]⟩ := by decide

example : pollLoop (fun i => if i ≤ 2 then some runningInfo else some completedInfo) =
    ⟨.completed completedInfo, 3, [15, 22]⟩ := by decide

/-- A concrete QUEUED response. -/
def queuedInfo : ReportInfo :=
  ⟨some "Report", some ⟨some "QUEUED", none⟩⟩

/-- The status sequence RUNNING, RUNNING, COMPLETED (check indices are
1-based, as `counter` is). -/
def respRRC : Nat → Option ReportInfo :=
  fun i => if i ≤ 2 then some runningInfo else some completedInfo

/-- When every check from `counter` on is a valid non-terminal status, the
loop runs up to the retry ceiling and exits with a timeout at check 5,
having slept the `nextSleep` iterates of `sleepTime`. -/
lemma pollAux_all_nonterminal (resp : Nat → Option ReportInfo)
    (h : ∀ i, 1 ≤ i → validNonTerminal (resp i)) :
    ∀ fuel counter sleepTime sleeps, 1 ≤ counter → counter ≤ 5 →
      6 - counter ≤ fuel →
      pollAux resp fuel counter sleepTime sleeps =
        ⟨.timeout, 5, sleeps ++ backoffFrom sleepTime (5 - counter)⟩ := by
  intro fuel
  induction fuel with
  | zero =>
    intro counter _ _ _ h5 hf
    omega
  | succ n ih =>
    intro counter sleepTime sleeps h1 h5 hf
    obtain ⟨info, s, hre, hst, hne, hnc, hnq, hnf⟩ := h counter h1
    simp only [pollAux, hre, hst]
    rw [if_neg hne, if_neg hnc, if_neg hnq, if_neg hnf]
    by_cases hc : counter = 5
    · subst hc
      rw [if_pos (by decide : maxRetries ≤ 5)]
      simp [backoffFrom]
    · have hlt : counter < 5 := lt_of_le_of_ne h5 hc
      rw [if_neg (by simp [maxRetries]; omega)]
      simp only [if_pos (by omega : 1 < counter + 1)]
      rw [ih (counter + 1) (nextSleep sleepTime) (sleeps ++ [nextSleep sleepTime])
        (by omega) (by omega) (by omega)]
      have h54 : 5 - counter = (4 - counter) + 1 := by omega
      have h45 : 5 - (counter + 1) = 4 - counter := by omega
      rw [h45, h54, backoffFrom]
      simp

/-- Claim C1: for every sequence of poll responses whose status values
are never COMPLETED, QUEUED, or FAILED, the poll loop performs exactly 5
status checks and then terminates via the retry ceiling with a timeout
failure and exit status 1; it never loops indefinitely. -/
theorem poll_timeout_after_five_checks (resp : Nat → Option ReportInfo)
    (h : ∀ i, 1 ≤ i → validNonTerminal (resp i)) :
    pollLoop resp = ⟨.timeout, 5, [15, 22, 33, 49]⟩ ∧
      pollExitCode (pollLoop resp).exit = some 1 := by
  have key := pollAux_all_nonterminal resp h maxRetries 1 initialSleepTime []
    le_rfl (by decide) (by decide)
  have heq : pollLoop resp = ⟨.timeout, 5, [15, 22, 33, 49]⟩ := by
    rw [pollLoop, key]; rfl
  exact ⟨heq, by rw [heq]; decide⟩

/-- Witness for C1 at the all-RUNNING response sequence. -/
theorem poll_timeout_after_five_checks_witness :
    pollLoop (fun _ => some runningInfo) = ⟨.timeout, 5, [15, 22, 33, 49]⟩ ∧
      pollExitCode (pollLoop (fun _ => some runningInfo)).exit = some 1 :=
  poll_timeout_after_five_checks (fun _ => some runningInfo)
    (fun _ _ => ⟨runningInfo, "RUNNING", rfl, rfl,
      by decide, by decide, by decide, by decide⟩)

/-- Counterexample to claim C2 as stated: with every poll response
RUNNING, the delays actually slept between checks are 15, 22, 33, 49 —
not 10, 15, 22, 33.  The delay variable starts at 10 but is multiplied by
1.5 (with truncation) before every sleep, including the first one. -/
theorem poll_sleeps_do_not_start_at_ten :
    (pollLoop (fun _ => some runningInfo)).sleeps = [15, 22, 33, 49] ∧
      (pollLoop (fun _ => some runningInfo)).sleeps ≠ [10, 15, 22, 33] := by
  constructor <;> decide

/-- Claim C2 (amended): after an initial 15-unit wait before the first
status check, the delay variable starts at 10 and is multiplied by 1.5
(integer truncation) before every inter-check sleep, so the delays
actually slept between checks are 15, 22, 33, 49, ... (the successive
`nextSleep` iterates of 10), not capped. -/
theorem poll_backoff_sleeps (resp : Nat → Option ReportInfo)
    (h : ∀ i, 1 ≤ i → validNonTerminal (resp i)) :
    initialWait = 15 ∧ initialSleepTime = 10 ∧
      (pollLoop resp).sleeps = backoffFrom initialSleepTime 4 ∧
      backoffFrom initialSleepTime 4 = [15, 22, 33, 49] := by
  have key := pollAux_all_nonterminal resp h maxRetries 1 initialSleepTime []
    le_rfl (by decide) (by decide)
  refine ⟨rfl, rfl, ?_, by decide⟩
  rw [pollLoop, key]
  simp

/-- Witness for the amended C2 at the all-RUNNING response sequence. -/
theorem poll_backoff_sleeps_witness :
    initialWait = 15 ∧ initialSleepTime = 10 ∧
      (pollLoop (fun _ => some runningInfo)).sleeps = backoffFrom initialSleepTime 4 ∧
      backoffFrom initialSleepTime 4 = [15, 22, 33, 49] :=
  poll_backoff_sleeps (fun _ => some runningInfo)
    (fun _ _ => ⟨runningInfo, "RUNNING", rfl, rfl,
      by decide, by decide, by decide, by decide⟩)

/-- Claim C3: on the status sequence RUNNING, RUNNING, COMPLETED the poll
loop performs exactly 3 status checks, stops on the COMPLETED response,
and falls through to the download step (no exit at the poll stage). -/
theorem poll_completes_on_third_check :
    pollLoop respRRC = ⟨.completed completedInfo, 3, [15, 22]⟩ ∧
      pollExitCode (pollLoop respRRC).exit = none := by
  constructor <;> decide

/-- When checks `counter .. k-1` are valid non-terminal and check `k`
carries a QUEUED or FAILED status, the loop exits at check `k` with the
corresponding abort. -/
lemma pollAux_terminal (resp : Nat → Option ReportInfo) (k : Nat) (s : String)
    (hk5 : k ≤ 5)
    (hresp : ∃ info, resp k = some info ∧ getStatus info = some s)
    (hs : s = "QUEUED" ∨ s = "FAILED")
    (h : ∀ i, 1 ≤ i → i < k → validNonTerminal (resp i)) :
    ∀ fuel counter sleepTime sleeps, 1 ≤ counter → counter ≤ k →
      6 - counter ≤ fuel →
      ∃ sl, pollAux resp fuel counter sleepTime sleeps =
        ⟨if s = "QUEUED" then .queuedAbort else .failedAbort, k, sl⟩ := by
  intro fuel
  induction fuel with
  | zero =>
    intro counter _ _ _ hck hf
    omega
  | succ n ih =>
    intro counter sleepTime sleeps h1 hck hf
    by_cases hek : counter = k
    · subst hek
      obtain ⟨info, hre, hst⟩ := hresp
      refine ⟨sleeps, ?_⟩
      simp only [pollAux, hre, hst]
      rcases hs with hq | hf2
      · subst hq
        rw [if_neg (by decide : ¬("QUEUED" : String) = ""),
          if_neg (by decide : ¬("QUEUED" : String) = "COMPLETED"),
          if_pos rfl, if_pos rfl]
      · subst hf2
        rw [if_neg (by decide : ¬("FAILED" : String) = ""),
          if_neg (by decide : ¬("FAILED" : String) = "COMPLETED"),
          if_neg (by decide : ¬("FAILED" : String) = "QUEUED"),
          if_pos rfl, if_neg (by decide : ¬("FAILED" : String) = "QUEUED")]
    · have hck' : counter < k := lt_of_le_of_ne hck hek
      obtain ⟨info, s', hre, hst, hne, hnc, hnq, hnf⟩ := h counter h1 hck'
      have hlt : counter < 5 := lt_of_lt_of_le hck' hk5
      simp only [pollAux, hre, hst]
      rw [if_neg hne, if_neg hnc, if_neg hnq, if_neg hnf,
        if_neg (by simp [maxRetries]; omega)]
      simp only [if_pos (by omega : 1 < counter + 1)]
      exact ih (counter + 1) (nextSleep sleepTime) (sleeps ++ [nextSleep sleepTime])
        (by omega) (by omega) (by omega)

/-- Claim C4: if the first `k - 1` poll responses are valid non-terminal
and response `k` (with `k` within the retry ceiling) reports QUEUED or
FAILED, the loop aborts at check `k` with the corresponding message and
exit status 1, performing no further status checks. -/
theorem poll_aborts_on_queued_or_failed (resp : Nat → Option ReportInfo)
    (k : Nat) (s : String) (hk1 : 1 ≤ k) (hk5 : k ≤ 5)
    (hresp : ∃ info, resp k = some info ∧ getStatus info = some s)
    (hs : s = "QUEUED" ∨ s = "FAILED")
    (h : ∀ i, 1 ≤ i → i < k → validNonTerminal (resp i)) :
    (pollLoop resp).exit =
        (if s = "QUEUED" then PollExit.queuedAbort else PollExit.failedAbort) ∧
      (pollLoop resp).checks = k ∧
      pollExitCode (pollLoop resp).exit = some 1 := by
  obtain ⟨sl, heq⟩ := pollAux_terminal resp k s hk5 hresp hs h
    maxRetries 1 initialSleepTime [] le_rfl hk1 (by decide)
  have h2 : pollLoop resp =
      ⟨if s = "QUEUED" then .queuedAbort else .failedAbort, k, sl⟩ := heq
  rw [h2]
  refine ⟨rfl, rfl, ?_⟩
  rcases hs with hq | hf2
  · subst hq; rfl
  · subst hf2; rfl

/-- The status sequence RUNNING, QUEUED (then RUNNING again, never
reached). -/
def respRQ : Nat → Option ReportInfo :=
  fun i => if i = 2 then some queuedInfo else some runningInfo

/-- Witness for C4: RUNNING then QUEUED aborts at check 2. -/
theorem poll_aborts_on_queued_or_failed_witness :
    (pollLoop respRQ).exit =
        (if ("QUEUED" : String) = "QUEUED" then PollExit.queuedAbort
          else PollExit.failedAbort) ∧
      (pollLoop respRQ).checks = 2 ∧
      pollExitCode (pollLoop respRQ).exit = some 1 :=
  poll_aborts_on_queued_or_failed respRQ 2 "QUEUED"
    (by decide) (by decide) ⟨queuedInfo, rfl, rfl⟩ (Or.inl rfl)
    (fun i h1 h2 => by
      have hi : i = 1 := by omega
      subst hi
      exact ⟨runningInfo, "RUNNING", rfl, rfl,
        by decide, by decide, by decide, by decide⟩)

/-! ### Filename sanitization (`sanitize_filename`, lines 139-145) -/

/-- The character class `[a-zA-Z0-9._-]` of the regular expression on
line 144. -/
def isAllowedChar (c : Char) : Bool :=
  ('a' ≤ c && c ≤ 'z') || ('A' ≤ c && c ≤ 'Z') || ('0' ≤ c && c ≤ '9') ||
    c == '.' || c == '_' || c == '-'

/-- Python `filename.replace(pat, rep)` for a one-character pattern and a
one-character replacement: every occurrence of the character is
replaced. -/
def pyReplaceChar (pat rep : Char) (s : String) : String :=
  ⟨s.data.map fun c => if c = pat then rep else c⟩

/-- Python `re.sub(r'[^a-zA-Z0-9._-]', '_', filename)` (line 144): every
character outside the class becomes an underscore. -/
def reSubDisallowed (s : String) : String :=
  ⟨s.data.map fun c => if isAllowedChar c then c else '_'⟩

/-- `sanitize_filename` (lines 139-145): replace spaces by underscores,
then replace every character outside `[a-zA-Z0-9._-]` by an
underscore. -/
def sanitize_filename (s : String) : String :=
  reSubDisallowed (pyReplaceChar ' ' '_' s)

/-- Claim C5: sanitization maps each character outside `[a-zA-Z0-9._-]`
(spaces included) to an underscore and keeps the others, and on the input
`"My Report (Q1)!.csv"` the output is `"My_Report__Q1__"` followed by
`".csv"`. -/
theorem sanitize_filename_spec :
    (∀ s : String, (sanitize_filename s).data =
        s.data.map fun c => if isAllowedChar c then c else '_') ∧
      sanitize_filename "My Report (Q1)!.csv" = "My_Report__Q1__" ++ ".csv" := by
  constructor
  · intro s
    simp only [sanitize_filename, pyReplaceChar, reSubDisallowed, List.map_map]
    refine List.map_congr_left ?_
    intro c _
    by_cases hc : c = ' '
    · subst hc; rfl
    · simp [Function.comp, hc]
  · decide

/-! ### Authentication (`CloudHealthFlexReport.authenticate`, lines 39-54,
and its caller in `main`, lines 201-207) -/

/-- The `loginAPI` object of a login response.  The outer `Option` is key
presence of `accessToken` (a missing key raises `KeyError` on line 51);
the inner `Option` is JSON `null` (Python `None`, falsy on line 53). -/
structure LoginAPIObj where
  accessToken : Option (Option String)
deriving DecidableEq, Repr

/-- The `data` object of a login response; `loginAPI` is `none` when the
key is absent (checked on line 48). -/
structure LoginData where
  loginAPI : Option LoginAPIObj
deriving DecidableEq, Repr

/-- A parsed login response; `data` is `none` when the key is absent
(checked on line 48). -/
structure LoginResponse where
  data : Option LoginData
deriving DecidableEq, Repr

/-- What `_execute_query` produced for the login mutation:
`transportError` covers the `RuntimeError`s it raises (network failure,
non-2xx, JSON parse failure, GraphQL-level errors); otherwise the parsed
body, with `none` for a falsy (JSON `null`) document. -/
inductive LoginQueryResult where
  | transportError
  | ok (resp : Option LoginResponse)
deriving DecidableEq, Repr

/-- How `authenticate` (lines 39-54) ends. -/
inductive AuthOutcome where
  /-- A token passing the checks of line 53 is stored and the method
  returns. -/
  | ok (token : String)
  /-- `ValueError("Failed to authenticate: Invalid API response")`
  (lines 48-49). -/
  | invalidResponse
  /-- `KeyError` from `response["data"]["loginAPI"]["accessToken"]`
  (line 51); uncaught by `main`, so the interpreter aborts the process
  with exit status 1. -/
  | keyError
  /-- `ValueError("Failed to obtain access token")` for a `None`, empty
  or `"null"` token (lines 53-54). -/
  | noToken
  /-- The `RuntimeError` of `_execute_query`, propagated. -/
  | transportError
deriving DecidableEq, Repr

/-- `authenticate` (lines 39-54) as a function of the one login-mutation
response it consumes: it performs no retry of any kind. -/
def authenticate : LoginQueryResult → AuthOutcome
  | .transportError => .transportError
  | .ok none => .invalidResponse
  | .ok (some resp) =>
    match resp.data with
    | none => .invalidResponse
    | some d =>
      match d.loginAPI with
      | none => .invalidResponse
      | some api =>
        match api.accessToken with
        | none => .keyError
        | some none => .noToken
        | some (some t) => if t = "" ∨ t = "null" then .noToken else .ok t

/-- Exit code of the invoking script after the `authenticate` call of
`main` (lines 201-207): success continues (`none`); `ValueError` and
`RuntimeError` are caught and turned into `sys.exit(1)`; the uncaught
`KeyError` also terminates the interpreter with exit status 1. -/
def authExitCode : AuthOutcome → Option Nat
  | .ok _ => none
  | .invalidResponse => some 1
  | .keyError => some 1
  | .noToken => some 1
  | .transportError => some 1

/-- Claim C6: the single login mutation either yields a bearer token that
is non-empty and not `"null"` (and the script continues), or fails, in
which case the one failure aborts the invoking script with exit status 1;
there is no retry (`authenticate` consumes exactly one query result). -/
theorem authenticate_contract (q : LoginQueryResult) :
    (∃ t, authenticate q = .ok t ∧ t ≠ "" ∧ t ≠ "null" ∧
        authExitCode (authenticate q) = none) ∨
      authExitCode (authenticate q) = some 1 := by
  cases q with
  | transportError => right; rfl
  | ok resp =>
    cases resp with
    | none => right; rfl
    | some r =>
      obtain ⟨d⟩ := r
      cases d with
      | none => right; rfl
      | some ld =>
        obtain ⟨api⟩ := ld
        cases api with
        | none => right; rfl
        | some a =>
          obtain ⟨tok⟩ := a
          cases tok with
          | none => right; rfl
          | some t? =>
            cases t? with
            | none => right; rfl
            | some t =>
              have he : authenticate (.ok (some ⟨some ⟨some ⟨some (some t)⟩⟩⟩)) =
                  if t = "" ∨ t = "null" then .noToken else .ok t := rfl
              by_cases ht : t = "" ∨ t = "null"
              · right
                rw [he, if_pos ht]
                rfl
              · left
                refine ⟨t, ?_, fun h => ht (Or.inl h), fun h => ht (Or.inr h), ?_⟩
                · rw [he, if_neg ht]
                · rw [he, if_neg ht]
                  rfl

/-! ### Bulk report creation (`create-flexreports.py`, lines 94-159) -/

/-- The `createFlexReport` object of a creation response; `id` is `none`
when the key is absent (`.get("id")` on line 131 returns `None`). -/
structure CreateFlexReportObj where
  id : Option String
deriving DecidableEq, Repr

/-- The `data` object of a creation response; `createFlexReport` is
`none` when `.get("createFlexReport", {})` on line 129 yields a falsy
value (key absent, or an empty object). -/
structure CreateRespData where
  createFlexReport : Option CreateFlexReportObj
deriving DecidableEq, Repr

/-- A parsed creation response body; `data` is `none` when
`.get("data", {})` on line 127 yields a falsy value. -/
structure CreateRespJson where
  data : Option CreateRespData
deriving DecidableEq, Repr

/-- One HTTP response of the creation call (lines 118-122): its status
code and parsed JSON body (`none` models a body that is `None`, rejected
on line 126). -/
structure FlexCreateResponse where
  status_code : Nat
  body : Option CreateRespJson
deriving DecidableEq, Repr

/-- The defensive unwrapping of lines 124-132: the FlexReport id of a
successful creation, or `none` when the status code is not 200, the body
is `None`, any nested key is absent or falsy, or the id itself is falsy.
Every `none` case only prints a message; the loop continues. -/
def createdId (r : FlexCreateResponse) : Option String :=
  if r.status_code = 200 then
    match r.body with
    | none => none
    | some j =>
      match j.data with
      | none => none
      | some d =>
        match d.createFlexReport with
        | none => none
        | some c =>
          match c.id with
          | none => none
          | some i => if i = "" then none else some i
  else none

/-- One iteration of the creation loop (lines 101-148) acting on the
accumulator `(flex_report_ids, successful_reports)`; an entry is the pair
of its suffixed display name and the response its creation call
returned. -/
def bulkStep (acc : List String × List String)
    (e : String × FlexCreateResponse) : List String × List String :=
  match createdId e.2 with
  | some i => (acc.1 ++ [i], acc.2 ++ [e.1])
  | none => acc

/-- The creation loop over all entries, starting from the two empty lists
of lines 95 and 98. -/
def bulkCreateLoop (entries : List (String × FlexCreateResponse)) :
    List String × List String :=
  entries.foldl bulkStep ([], [])

/-- The (id, suffixed name) pairs of the entries whose creation
succeeded, in order. -/
def successPairs (entries : List (String × FlexCreateResponse)) :
    List (String × String) :=
  entries.filterMap fun e => (createdId e.2).map fun i => (i, e.1)

/-- What the script leaves on disk and in the process status after the
loop (lines 150-159): `previous-run.list` is written unconditionally with
the collected ids; `successful_reports.list` is written only when
`successful_reports` is non-empty (`none` means the file is not
written); the script then ends normally, so the exit code is 0. -/
structure BulkRunResult where
  previousRunList : List String
  successfulReportsList : Option (List String)
  exitCode : Nat
deriving DecidableEq, Repr

/-- The loop followed by the file-writing epilogue of lines 150-159. -/
def bulkRun (entries : List (String × FlexCreateResponse)) : BulkRunResult :=
  let r := bulkCreateLoop entries
  ⟨r.1, if r.2 = [] then none else some r.2, 0⟩

/-- A creation response carrying id `i`. -/
def okResp (i : String) : FlexCreateResponse :=
  ⟨200, some ⟨some ⟨some ⟨some i⟩⟩⟩⟩

/-- A 200 creation response whose `createFlexReport` object has no `id`
key. -/
def noIdResp : FlexCreateResponse :=
  ⟨200, some ⟨some ⟨some ⟨none⟩⟩⟩⟩

/-- A failed creation call (non-200, no usable body). -/
def failResp : FlexCreateResponse :=
  ⟨500, none⟩

/-- The loop from any accumulator appends exactly the projections of the
successful (id, name) pairs. -/
lemma foldl_bulkStep (entries : List (String × FlexCreateResponse)) :
    ∀ ids names, entries.foldl bulkStep (ids, names) =
      (ids ++ (successPairs entries).map Prod.fst,
        names ++ (successPairs entries).map Prod.snd) := by
  induction entries with
  | nil => intro ids names; simp [successPairs]
  | cons e t ih =>
    intro ids names
    rcases hc : createdId e.2 with _ | i
    · simp [bulkStep, hc, successPairs, List.filterMap_cons, ih,
        List.foldl_cons]
    · simp only [List.foldl_cons, bulkStep, hc]
      rw [ih]
      simp [successPairs, List.filterMap_cons, hc]

/-- The creation loop computes the two projections of `successPairs`. -/
lemma bulkCreateLoop_eq (entries : List (String × FlexCreateResponse)) :
    bulkCreateLoop entries =
      ((successPairs entries).map Prod.fst,
        (successPairs entries).map Prod.snd) := by
  simpa using foldl_bulkStep entries [] []

/-- Claim C7: a per-entry response missing an expected nested key (here:
`id`) is a non-fatal per-item failure; with 3 entries where entry 2's
response omits `id`, the loop continues, both output lists have exactly
2 entries, and the process exits with code 0. -/
theorem bulk_create_skips_missing_id
    (n1 n2 n3 : String) (r1 r2 r3 : FlexCreateResponse) (i1 i3 : String)
    (h1 : createdId r1 = some i1)
    (h2m : r2.status_code = 200 ∧ ∃ j d c, r2.body = some j ∧
      j.data = some d ∧ d.createFlexReport = some c ∧ c.id = none)
    (h3 : createdId r3 = some i3) :
    bulkCreateLoop [(n1, r1), (n2, r2), (n3, r3)] = ([i1, i3], [n1, n3]) ∧
      ([i1, i3] : List String).length = 2 ∧
      ([n1, n3] : List String).length = 2 ∧
      (bulkRun [(n1, r1), (n2, r2), (n3, r3)]).exitCode = 0 := by
  have h2 : createdId r2 = none := by
    obtain ⟨hs, j, d, c, hj, hd, hc, hid⟩ := h2m
    simp [createdId, hs, hj, hd, hc, hid]
  refine ⟨?_, rfl, rfl, rfl⟩
  simp [bulkCreateLoop, List.foldl_cons, bulkStep, h1, h2, h3]

/-- Witness for C7 at concrete responses. -/
theorem bulk_create_skips_missing_id_witness :
    bulkCreateLoop [("A", okResp "id1"), ("B", noIdResp), ("C", okResp "id3")] =
        (["id1", "id3"], ["A", "C"]) ∧
      (["id1", "id3"] : List String).length = 2 ∧
      (["A", "C"] : List String).length = 2 ∧
      (bulkRun [("A", okResp "id1"), ("B", noIdResp), ("C", okResp "id3")]).exitCode = 0 :=
  bulk_create_skips_missing_id "A" "B" "C" (okResp "id1") noIdResp (okResp "id3")
    "id1" "id3" (by decide)
    ⟨rfl, ⟨⟨some ⟨some ⟨none⟩⟩⟩, ⟨some ⟨none⟩⟩, ⟨none⟩, rfl, rfl, rfl, rfl⟩⟩
    (by decide)

/-- Counterexample to claim C8 as stated: on a run where no entry
succeeded (one entry, failed call) the successful-names file is not
written at all (`none`), while the claim requires both output files to be
written on every run. -/
theorem successful_names_file_not_always_written :
    (bulkRun [("A", failResp)]).successfulReportsList = none ∧
      (bulkRun [("A", failResp)]).previousRunList = [] := by
  constructor <;> rfl

/-- Claim C8 (amended): at the end of the flow the created-ID file is
always written and contains exactly the successful ids; the
successful-names file is written exactly when at least one entry
succeeded, and then contains exactly the successful names. -/
theorem bulk_output_files (entries : List (String × FlexCreateResponse)) :
    (bulkRun entries).previousRunList = (successPairs entries).map Prod.fst ∧
      (bulkRun entries).successfulReportsList =
        (if (successPairs entries).map Prod.snd = [] then none
          else some ((successPairs entries).map Prod.snd)) := by
  have h := bulkCreateLoop_eq entries
  constructor
  · show (bulkCreateLoop entries).1 = _
    rw [h]
  · show (if (bulkCreateLoop entries).2 = [] then none
        else some (bulkCreateLoop entries).2) = _
    rw [h]

/-- Claim C9: the created-ID list and the successful-name list are the
two projections of one list of per-entry successes, so they always have
the same length and their i-th entries come from the same report, an id
being appended exactly when that report's suffixed name is. -/
theorem bulk_lists_aligned (entries : List (String × FlexCreateResponse)) :
    (bulkCreateLoop entries).1 = (successPairs entries).map Prod.fst ∧
      (bulkCreateLoop entries).2 = (successPairs entries).map Prod.snd ∧
      (bulkCreateLoop entries).1.length = (bulkCreateLoop entries).2.length := by
  have h := bulkCreateLoop_eq entries
  refine ⟨by rw [h], by rw [h], ?_⟩
  rw [h]
  simp

/-! ### Download-URL extraction (`main`, lines 316-324) -/

/-- How line 317 ends: a usable URL, an `IndexError` from `[0]` on an
empty `contents` list, or the `ValueError` for a missing, empty or
`"null"` URL (lines 319-320).  Both error kinds are caught on line 322
and produce `sys.exit(1)`. -/
inductive DlUrlOutcome where
  | ok (url : String)
  | indexError
  | missingUrl
deriving DecidableEq, Repr

/-- The default `[{}]` of `.get("contents", [{}])` on line 317. -/
def defaultContents : List Content := [⟨none⟩]

/-- `report_info.get("result", {}).get("contents", [{}])[0].get("preSignedUrl")`
followed by the falsy/`"null"` check (lines 316-320). -/
def extractDownloadUrl (info : ReportInfo) : DlUrlOutcome :=
  let contents :=
    match info.result with
    | none => defaultContents
    | some r =>
      match r.contents with
      | none => defaultContents
      | some cs => cs
  match contents with
  | [] => .indexError
  | c :: _ =>
    match c.preSignedUrl with
    | none => .missingUrl
    | some u => if u = "" ∨ u = "null" then .missingUrl else .ok u

/-- Exit behaviour of lines 316-324: a usable URL continues (`none`);
`ValueError` and `IndexError` are caught and produce `sys.exit(1)`. -/
def dlUrlExitCode : DlUrlOutcome → Option Nat
  | .ok _ => none
  | .indexError => some 1
  | .missingUrl => some 1

/-- Claim C10: the download step inspects only the first content
descriptor — the outcome is unchanged if the later descriptors are
dropped, and a successful outcome carries the first descriptor's URL;
an empty `contents` list aborts with exit status 1, and a first
descriptor whose URL is missing, `"null"` or empty aborts with exit
status 1 instead of trying later descriptors. -/
theorem download_uses_only_first_descriptor (nm st : Option String)
    (c : Content) (rest : List Content) :
    extractDownloadUrl ⟨nm, some ⟨st, some (c :: rest)⟩⟩ =
        extractDownloadUrl ⟨nm, some ⟨st, some [c]⟩⟩ ∧
      (∀ u, extractDownloadUrl ⟨nm, some ⟨st, some (c :: rest)⟩⟩ = .ok u →
        c.preSignedUrl = some u) ∧
      (extractDownloadUrl ⟨nm, some ⟨st, some ([] : List Content)⟩⟩ = .indexError ∧
        dlUrlExitCode .indexError = some 1) ∧
      ((c.preSignedUrl = none ∨ c.preSignedUrl = some "null" ∨
          c.preSignedUrl = some "") →
        dlUrlExitCode (extractDownloadUrl ⟨nm, some ⟨st, some (c :: rest)⟩⟩) =
          some 1) := by
  have hred : ∀ (cs : List Content) (c0 : Content),
      extractDownloadUrl ⟨nm, some ⟨st, some (c0 :: cs)⟩⟩ =
        (match c0.preSignedUrl with
          | none => DlUrlOutcome.missingUrl
          | some u =>
            if u = "" ∨ u = "null" then DlUrlOutcome.missingUrl
            else DlUrlOutcome.ok u) :=
    fun _ _ => rfl
  refine ⟨rfl, ?_, ⟨rfl, rfl⟩, ?_⟩
  · intro u hu
    rw [hred rest c] at hu
    rcases hc : c.preSignedUrl with _ | u'
    · have hm : (match (none : Option String) with
          | none => DlUrlOutcome.missingUrl
          | some v =>
            if v = "" ∨ v = "null" then DlUrlOutcome.missingUrl
            else DlUrlOutcome.ok v) = DlUrlOutcome.missingUrl := rfl
      rw [hc, hm] at hu
      cases hu
    · have hm : (match (some u' : Option String) with
          | none => DlUrlOutcome.missingUrl
          | some v =>
            if v = "" ∨ v = "null" then DlUrlOutcome.missingUrl
            else DlUrlOutcome.ok v) =
          if u' = "" ∨ u' = "null" then DlUrlOutcome.missingUrl
          else DlUrlOutcome.ok u' := rfl
      rw [hc, hm] at hu
      by_cases hcond : u' = "" ∨ u' = "null"
      · rw [if_pos hcond] at hu
        cases hu
      · rw [if_neg hcond] at hu
        injection hu with h2
        rw [← h2]
  · intro hbad
    rw [hred rest c]
    rcases hbad with hc | hc | hc <;> rw [hc] <;> decide

/-- Witness for C10: a first descriptor with URL `"null"` aborts even
though a second descriptor carries a usable URL. -/
theorem download_uses_only_first_descriptor_witness :
    dlUrlExitCode (extractDownloadUrl ⟨some "R", some ⟨some "COMPLETED",
        some [⟨some "null"⟩, ⟨some "https://s3/ok"⟩]⟩⟩) = some 1 :=
  (download_uses_only_first_descriptor (some "R") (some "COMPLETED")
      ⟨some "null"⟩ [⟨some "https://s3/ok"⟩]).2.2.2 (Or.inr (Or.inl rfl))

end FlexTools
